import Mathlib

/-!
Shallow embedding of `src/main.rs` of the quicksilver-roguelike repository.

Conventions:
* `f32` values are carried as rationals (`ℚ`).  Position and geometry
  arithmetic (adding and subtracting `1.0`, componentwise multiplication of
  small integer vectors) is exact in `f32` at the values the program uses,
  so plain rational arithmetic is faithful there.  The one place where
  `f32` rounding is observable — the health-bar width division and
  multiplication — is additionally modelled by `f32_round`, an explicit
  IEEE-754 binary32 round-to-nearest-ties-even on `ℚ` (valid on the normal
  range, the only range this program reaches).
* `i32` is modelled as `ℤ`, `usize` loop counters as `ℕ`.
* Externally loaded assets (the two fonts) are modelled by their observable
  data: a rendered text image is identified by its source string together
  with a size chosen by the external font renderer; a tileset image is
  identified by its index in the rendered glyph strip together with its size.
* Asset readiness (`Asset::execute` runs its closure only once loading has
  finished) is modelled by `Option`: `none` is the still-loading state, in
  which the corresponding code block is skipped.
-/

/-- `quicksilver::graphics::Color`: an RGBA quadruple of `f32` channels. -/
structure Color where
  r : ℚ
  g : ℚ
  b : ℚ
  a : ℚ
deriving DecidableEq, Repr

def Color.BLACK : Color := ⟨0, 0, 0, 1⟩

def Color.WHITE : Color := ⟨1, 1, 1, 1⟩

def Color.RED : Color := ⟨1, 0, 0, 1⟩

def Color.BLUE : Color := ⟨0, 0, 1, 1⟩

def Color.PURPLE : Color := ⟨1, 0, 1, 1⟩

/-- `Color::with_alpha`: replace the alpha channel. -/
def Color.with_alpha (c : Color) (a : ℚ) : Color := { c with a := a }

/-- `quicksilver::geom::Vector`: a 2-d vector of `f32` components. -/
structure Vec2 where
  x : ℚ
  y : ℚ
deriving DecidableEq, Repr

/-- `Vector` addition (componentwise). -/
def Vec2.add (v w : Vec2) : Vec2 := ⟨v.x + w.x, v.y + w.y⟩

instance : Add Vec2 := ⟨Vec2.add⟩

/-- `Vector::times`: componentwise multiplication. -/
def Vec2.times (v w : Vec2) : Vec2 := ⟨v.x * w.x, v.y * w.y⟩

/-- Rust `as i32` on an `f32` value: truncation toward zero. -/
def f32_to_i32 (q : ℚ) : ℤ := if 0 ≤ q then ⌊q⌋ else ⌈q⌉

/-- `struct Tile { pos: Vector, glyph: char, color: Color }` (main.rs:16-21). -/
structure Tile where
  pos : Vec2
  glyph : Char
  color : Color
deriving DecidableEq, Repr

/-- The loop body of `generate_map` (main.rs:29-38): the tile built for cell
`(x, y)` of a `width × height` grid — glyph `'.'`, color black, overwritten to
`'#'` when the cell lies on the border. -/
def mkTile (width height x y : ℕ) : Tile :=
  ⟨⟨(x : ℚ), (y : ℚ)⟩,
   if x = 0 ∨ x = width - 1 ∨ y = 0 ∨ y = height - 1 then '#' else '.',
   Color.BLACK⟩

/-- `generate_map` (main.rs:23-42): outer loop over `x in 0..width`, inner
loop over `y in 0..height`, pushing one tile per iteration. -/
def generate_map (width height : ℕ) : List Tile :=
  (List.range width).flatMap fun x => (List.range height).map fun y =>
    mkTile width height x y

/-- `struct Pos(Vector)` is represented by its payload `Vec2`;
`struct Health { max: i32, current: i32 }` (main.rs:51-55). -/
structure Health where
  max : ℤ
  current : ℤ
deriving DecidableEq, Repr

/-- `Health::new` (main.rs:57-64): both fields set to `value`. -/
def Health.new (value : ℤ) : Health := ⟨value, value⟩

/-- `struct Render { glyph: char, color: Color }` (main.rs:70-74). -/
structure Render where
  glyph : Char
  color : Color
deriving DecidableEq, Repr

/-- The `specs::World` as this program uses it: three component tables keyed
by entity id (`Pos` and `Render` in `VecStorage`, `Health` in
`HashMapStorage` — a per-type storage choice that does not affect observable
lookups), plus the list of live entity ids in creation order. -/
structure World where
  entities : List ℕ
  pos : ℕ → Option Vec2
  render : ℕ → Option Render
  health : ℕ → Option Health

/-- Overwrite the `Pos` component of entity `e` (the effect of mutating
through `write_storage::<Pos>().get_mut(e)`). -/
def World.writePos (w : World) (e : ℕ) (p : Vec2) : World :=
  { w with pos := fun e' => if e' = e then some p else w.pos e' }

/-- Modelled from the spec: `World::maintain` of the external `specs` crate
"applies all deferred destructions".  This program never destroys or lazily
creates an entity, so there is nothing deferred and maintenance leaves the
world unchanged. -/
def World.maintain (w : World) : World := w

/-- Modelled from the spec: the `specs` join `(&pos_storage, &render_storage).join()`
"produces a lazy, finite sequence of tuples over exactly the entities that
currently hold all listed component types"; iteration order is taken to be
entity-creation order. -/
def World.join (w : World) : List (ℕ × Vec2 × Render) :=
  w.entities.filterMap fun e =>
    match w.pos e, w.render e with
    | some p, some r => some (e, p, r)
    | _, _ => none

/-- The world built by `generate_entities` (main.rs:80-118) followed by the
player creation in `Game::new` (main.rs:182-190): entities 0 and 1 are
goblins, 2 and 3 are food items without `Health`, 4 is the player. -/
def initialWorld : World where
  entities := [0, 1, 2, 3, 4]
  pos := fun e =>
    if e = 0 then some ⟨9, 6⟩
    else if e = 1 then some ⟨2, 4⟩
    else if e = 2 then some ⟨7, 5⟩
    else if e = 3 then some ⟨4, 8⟩
    else if e = 4 then some ⟨5, 3⟩
    else none
  render := fun e =>
    if e = 0 then some ⟨'g', Color.RED⟩
    else if e = 1 then some ⟨'g', Color.RED⟩
    else if e = 2 then some ⟨'%', Color.PURPLE⟩
    else if e = 3 then some ⟨'%', Color.PURPLE⟩
    else if e = 4 then some ⟨'@', Color.BLUE⟩
    else none
  health := fun e =>
    if e = 0 then some (Health.new 1)
    else if e = 1 then some (Health.new 1)
    else if e = 4 then some ⟨5, 3⟩
    else none

/-- The four text images of `struct GameText` (main.rs:120-126), each
identified by its source string (the font renderer that turns the string
into pixels is an external collaborator). -/
structure GameText where
  title : String
  mononoki_info : String
  square_info : String
  inventory : String
deriving DecidableEq, Repr

/-- The `GameText` produced by the asset closure in `Game::new`
(main.rs:147-171). -/
def initialGameText : GameText where
  title := "Quicksilver Roguelike"
  mononoki_info := "Mononoki font by Matthias Tellen, terms: SIL Open Font License 1.1"
  square_info := "Square font by Wouter Van Oortmerssen, terms: CC BY 3.0"
  inventory := "Inventory:\n[A] Sword\n[B] Shield\n[C] Darts"

/-- The replacement inventory string rendered in `Game::update`
(main.rs:246-249) while the `X` key is held. -/
def swappedInventoryText : String := "Inventory:\n[A] Dagger\n[B] Buckler"

/-- A tileset image: its index in the rendered glyph strip and its size
(every subimage is cut to `tile_size_px`, main.rs:202-206). -/
structure Image where
  id : ℕ
  size : Vec2
deriving DecidableEq, Repr

/-- `let game_glyphs = "#@g.%"` (main.rs:195). -/
def game_glyphs : List Char := ['#', '@', 'g', '.', '%']

/-- The tileset `HashMap<char, Image>` built in `Game::new` (main.rs:197-208):
glyph `game_glyphs[i]` maps to the `i`-th `tile_size_px`-sized subimage. -/
def mk_tileset (tile_size : Vec2) : List (Char × Image) :=
  game_glyphs.enum.map fun ig => (ig.2, ⟨ig.1, tile_size⟩)

/-- `HashMap::get` on the glyph table (all keys are distinct, so
first-match lookup agrees with the hash map). -/
def lookupGlyph (ts : List (Char × Image)) (c : Char) : Option Image :=
  (ts.find? fun p => p.1 == c).map fun p => p.2

/-- `struct Game` (main.rs:128-136).  The two `Asset` fields are `Option`s:
`none` while the asset is still loading. -/
structure Game where
  text : Option GameText
  map_size : Vec2
  map : List Tile
  world : World
  player : ℕ
  tileset : Option (List (Char × Image))
  tile_size_px : Vec2

/-- `Game::new` (main.rs:140-219), parametrised by whether each of the two
font assets has finished loading (their completion is driven externally). -/
def Game.new (textReady tilesetReady : Bool) : Game where
  text := if textReady then some initialGameText else none
  map_size := ⟨20, 15⟩
  map := generate_map 20 15
  world := initialWorld
  player := 4
  tileset := if tilesetReady then some (mk_tileset ⟨24, 24⟩) else none
  tile_size_px := ⟨24, 24⟩

/-- The keyboard state `Game::update` reads: the four arrow keys compared
against `Pressed` (pressed this frame), and `Escape` / `X` queried with
`is_down` (held). -/
structure Input where
  left : Bool
  right : Bool
  up : Bool
  down : Bool
  escape : Bool
  x : Bool
deriving DecidableEq, Repr

/-- The four sequential `if` blocks of `Game::update` (main.rs:226-237):
each pressed arrow key independently adds or subtracts `1.0` on its axis. -/
def movePlayer (p : Vec2) (i : Input) : Vec2 :=
  let p1 := if i.left then { p with x := p.x - 1 } else p
  let p2 := if i.right then { p1 with x := p1.x + 1 } else p1
  let p3 := if i.up then { p2 with y := p2.y - 1 } else p2
  if i.down then { p3 with y := p3.y + 1 } else p3

/-- `Game::update` (main.rs:222-258).  Returns the next state together with
the quit signal (`window.close()` requested by `Escape`).  If the player has
a `Pos` component it is moved; while `X` is held and the text asset is
loaded, the inventory image is re-rendered from the swapped string; finally
`world.maintain()` runs. -/
def Game.update (g : Game) (i : Input) : Game × Bool :=
  let g1 :=
    match g.world.pos g.player with
    | some p => { g with world := g.world.writePos g.player (movePlayer p i) }
    | none => g
  let g2 :=
    if i.x then
      match g1.text with
      | some t => { g1 with text := some { t with inventory := swappedInventoryText } }
      | none => g1
    else g1
  ({ g2 with world := g2.world.maintain }, i.escape)

/-- An axis-aligned rectangle (`quicksilver::geom::Rectangle`). -/
structure Rect where
  pos : Vec2
  size : Vec2
deriving DecidableEq, Repr

/-- One command handed to the renderer: blit a text image, blit a tinted
tileset image (`Blended`), or fill a rectangle with a color (`Col`). -/
inductive DrawCmd where
  | text (source : String) (r : Rect)
  | blended (img : Image) (color : Color) (r : Rect)
  | fill (color : Color) (r : Rect)
deriving DecidableEq, Repr

/-- `offset_px` (main.rs:301). -/
def drawOffset : Vec2 := ⟨50, 120⟩

/-- Layer 1 (main.rs:265-274): the title image, centered horizontally at
`screen_size().x as i32 / 2` and vertically at `40`; skipped while the text
asset loads.  `fontSize` is the external font renderer's size for each
rendered string. -/
def titleLayer (text? : Option GameText) (fontSize : String → Vec2)
    (screen : Vec2) : List DrawCmd :=
  match text? with
  | none => []
  | some t =>
    let sz := fontSize t.title
    [.text t.title ⟨⟨((f32_to_i32 screen.x / 2 : ℤ) : ℚ) - sz.x / 2,
                     (40 : ℚ) - sz.y / 2⟩, sz⟩]

/-- Layer 2 (main.rs:277-298): the two attribution lines, anchored at
`x = 2` and `screen_size().y as i32 - 60` resp. `- 30`. -/
def creditsLayer (text? : Option GameText) (fontSize : String → Vec2)
    (screen : Vec2) : List DrawCmd :=
  match text? with
  | none => []
  | some t =>
    [.text t.mononoki_info
       ⟨⟨2, ((f32_to_i32 screen.y - 60 : ℤ) : ℚ)⟩, fontSize t.mononoki_info⟩,
     .text t.square_info
       ⟨⟨2, ((f32_to_i32 screen.y - 30 : ℤ) : ℚ)⟩, fontSize t.square_info⟩]

/-- Layer 3 (main.rs:304-316): one tinted blit per map tile whose glyph
resolves in the tileset; skipped entirely while the tileset loads. -/
def mapLayer (tileset? : Option (List (Char × Image))) (map : List Tile)
    (offset tile_size : Vec2) : List DrawCmd :=
  match tileset? with
  | none => []
  | some ts =>
    map.filterMap fun tile =>
      match lookupGlyph ts tile.glyph with
      | some image =>
        some (.blended image tile.color ⟨offset + tile.pos.times tile_size, image.size⟩)
      | none => none

/-- Layer 4 (main.rs:318-332): one tinted blit per `(Pos, Render)` join
result whose glyph resolves in the tileset. -/
def entityLayer (tileset? : Option (List (Char × Image)))
    (joined : List (ℕ × Vec2 × Render)) (offset tile_size : Vec2) : List DrawCmd :=
  match tileset? with
  | none => []
  | some ts =>
    joined.filterMap fun epr =>
      match lookupGlyph ts epr.2.2.glyph with
      | some image =>
        some (.blended image epr.2.2.color
          ⟨offset + epr.2.1.times tile_size, image.size⟩)
      | none => none

/-- Layer 5 (main.rs:337-354): if the player has a `Health` component, a
translucent full-width backing rectangle followed by an opaque rectangle of
width `(current as f32 / max as f32) * 100.0`.  The only gate is component
presence. -/
def healthBarLayer (playerHealth : Option Health) (barPos : Vec2)
    (tile_size_y : ℚ) : List DrawCmd :=
  match playerHealth with
  | none => []
  | some h =>
    let full_health_width : ℚ := 100
    let current_health_width :=
      ((h.current : ℚ) / (h.max : ℚ)) * full_health_width
    [.fill (Color.RED.with_alpha (1 / 2)) ⟨barPos, ⟨full_health_width, tile_size_y⟩⟩,
     .fill Color.RED ⟨barPos, ⟨current_health_width, tile_size_y⟩⟩]

/-- Whether the draw pass evaluates `current / max` with a zero divisor:
the division at main.rs:340-341 runs exactly when the `if let` at
main.rs:338 finds a `Health` component, and its divisor is `max`. -/
def healthBarDividesByZero (playerHealth : Option Health) : Bool :=
  match playerHealth with
  | none => false
  | some h => h.max == 0

/-- The idealized real-valued width of the "current" health rectangle:
`(current / max) * full_width` computed exactly.  The program computes this
expression in `f32` (main.rs:340-341); `current_health_width_f32` below
applies the `f32` rounding to each operation. -/
def current_health_width (current mx : ℤ) (full_width : ℚ) : ℚ :=
  ((current : ℚ) / (mx : ℚ)) * full_width

/-- Round a rational to the nearest integer, ties to even — the IEEE-754
default rounding of the fractional part. -/
def roundNearestEven (x : ℚ) : ℤ :=
  if x - ⌊x⌋ < 1 / 2 then ⌊x⌋
  else if 1 / 2 < x - ⌊x⌋ then ⌊x⌋ + 1
  else if ⌊x⌋ % 2 = 0 then ⌊x⌋ else ⌊x⌋ + 1

/-- `⌊log₂ q⌋` of a positive rational. -/
def ratLog2 (q : ℚ) : ℤ :=
  if 1 ≤ q then (Nat.log 2 ⌊q⌋.toNat : ℤ) else -(Nat.clog 2 ⌈1 / q⌉.toNat : ℤ)

/-- Multiply a rational by an integer power of two. -/
def mulPow2 (q : ℚ) (e : ℤ) : ℚ := q * (2 : ℚ) ^ e

/-- IEEE-754 binary32 (Rust `f32`) rounding of an exact value to the
nearest representable float, ties to even, stated for results in the normal
binary32 range (the only range this program's health-bar arithmetic
reaches): the significand is rounded to 24 bits. -/
def f32_round (q : ℚ) : ℚ :=
  if q = 0 then 0
  else if q < 0 then
    -(mulPow2 (roundNearestEven (mulPow2 (-q) (23 - ratLog2 (-q))) : ℚ)
       (ratLog2 (-q) - 23))
  else
    mulPow2 (roundNearestEven (mulPow2 q (23 - ratLog2 q)) : ℚ)
      (ratLog2 q - 23)

/-- The width the program's `f32` arithmetic actually produces at
main.rs:340-341: `current as f32` and `max as f32` are exact at this
program's values, then the division and the multiplication by the (exactly
representable) full width each round to binary32. -/
def current_health_width_f32 (current mx : ℤ) (full_width : ℚ) : ℚ :=
  f32_round (f32_round ((current : ℚ) / (mx : ℚ)) * full_width)

/-- Layer 6 (main.rs:356-365): the inventory text block, one tile below the
health bar position. -/
def inventoryLayer (text? : Option GameText) (fontSize : String → Vec2)
    (barPos : Vec2) (tile_size_y : ℚ) : List DrawCmd :=
  match text? with
  | none => []
  | some t =>
    [.text t.inventory ⟨barPos + ⟨0, tile_size_y⟩, fontSize t.inventory⟩]

/-- `health_bar_pos_px` (main.rs:334-335): `offset + (map_size_px.x, 0)`. -/
def Game.healthBarPos (g : Game) : Vec2 :=
  drawOffset + ⟨(g.map_size.times g.tile_size_px).x, 0⟩

/-- `Game::draw` (main.rs:261-368): the six layers emitted back to front in
program order.  `fontSize` and `screen` stand for the external font renderer
and `window.screen_size()`. -/
def Game.draw (g : Game) (fontSize : String → Vec2) (screen : Vec2) : List DrawCmd :=
  titleLayer g.text fontSize screen
    ++ creditsLayer g.text fontSize screen
    ++ mapLayer g.tileset g.map drawOffset g.tile_size_px
    ++ entityLayer g.tileset g.world.join drawOffset g.tile_size_px
    ++ healthBarLayer (g.world.health g.player) g.healthBarPos g.tile_size_px.y
    ++ inventoryLayer g.text fontSize g.healthBarPos g.tile_size_px.y

/-- The data-model invariant on `Health` values: `0 ≤ current ≤ max` for
every entity carrying the component. -/
def healthInv (w : World) : Prop :=
  ∀ e h, w.health e = some h → 0 ≤ h.current ∧ h.current ≤ h.max

/-! ### Helper lemmas -/

theorem mem_generate_map {w h : ℕ} {t : Tile} :
    t ∈ generate_map w h ↔ ∃ x y : ℕ, x < w ∧ y < h ∧ t = mkTile w h x y := by
  simp only [generate_map, List.mem_flatMap, List.mem_map, List.mem_range]
  constructor
  · rintro ⟨x, hx, y, hy, rfl⟩
    exact ⟨x, y, hx, hy, rfl⟩
  · rintro ⟨x, y, hx, hy, rfl⟩
    exact ⟨x, hx, y, hy, rfl⟩

theorem generate_map_length (w h : ℕ) : (generate_map w h).length = w * h := by
  simp [generate_map, List.length_flatMap, Function.comp_def, List.map_const',
    List.sum_replicate, smul_eq_mul]

theorem generate_map_pos_eq (w h : ℕ) :
    (generate_map w h).map Tile.pos =
      (List.range w).flatMap fun x => (List.range h).map fun y : ℕ =>
        (⟨(x : ℚ), (y : ℚ)⟩ : Vec2) := by
  rw [generate_map, List.map_flatMap]
  simp only [List.map_map]
  rfl

theorem generate_map_pos_nodup (w h : ℕ) :
    ((generate_map w h).map Tile.pos).Nodup := by
  rw [generate_map_pos_eq, List.nodup_flatMap]
  refine ⟨fun x _ => ?_, ?_⟩
  · refine (List.nodup_range h).map ?_
    intro a b hab
    have := (Vec2.mk.injEq _ _ _ _).mp hab
    exact_mod_cast this.2
  · refine (List.pairwise_lt_range w).imp ?_
    intro a b hab
    intro v hva hvb
    simp only [List.mem_map, List.mem_range] at hva hvb
    obtain ⟨y1, _, rfl⟩ := hva
    obtain ⟨y2, _, h2⟩ := hvb
    have := (Vec2.mk.injEq _ _ _ _).mp h2
    have : b = a := by exact_mod_cast this.1
    omega

/-! ### Claim theorems -/

/-- C1: for every positive size `(w, h)`, `generate_map` returns exactly
`w * h` tiles; the tile positions are duplicate-free and cover every pair
`(x, y)` with `x < w`, `y < h`; a tile's glyph is `'#'` iff its cell lies on
the border (`x = 0 ∨ x = w - 1 ∨ y = 0 ∨ y = h - 1`) and `'.'` with color
black otherwise.  (Determinism and purity hold by construction: the embedded
`generate_map` is a function of `w` and `h` alone.) -/
theorem generate_map_correct (w h : ℕ) (hw : 0 < w) (hh : 0 < h) :
    (generate_map w h).length = w * h
    ∧ ((generate_map w h).map Tile.pos).Nodup
    ∧ (∀ x y : ℕ, x < w → y < h → mkTile w h x y ∈ generate_map w h)
    ∧ (∀ t ∈ generate_map w h, ∃ x y : ℕ, x < w ∧ y < h ∧ t = mkTile w h x y
        ∧ t.pos = ⟨(x : ℚ), (y : ℚ)⟩
        ∧ (t.glyph = '#' ↔ (x = 0 ∨ x = w - 1 ∨ y = 0 ∨ y = h - 1))
        ∧ (t.glyph ≠ '#' → t.glyph = '.' ∧ t.color = Color.BLACK)) := by
  refine ⟨generate_map_length w h, generate_map_pos_nodup w h, ?_, ?_⟩
  · intro x y hx hy
    exact mem_generate_map.mpr ⟨x, y, hx, hy, rfl⟩
  · intro t ht
    obtain ⟨x, y, hx, hy, rfl⟩ := mem_generate_map.mp ht
    refine ⟨x, y, hx, hy, rfl, rfl, ?_, ?_⟩
    · by_cases hb : x = 0 ∨ x = w - 1 ∨ y = 0 ∨ y = h - 1
      · simp [mkTile, hb]
      · simp [mkTile, hb]
    · intro hne
      by_cases hb : x = 0 ∨ x = w - 1 ∨ y = 0 ∨ y = h - 1
      · exact absurd (by simp [mkTile, hb]) hne
      · exact ⟨by simp [mkTile, hb], rfl⟩

/-- Witness for C1 at the concrete size `(3, 3)`. -/
theorem generate_map_correct_witness :
    (generate_map 3 3).length = 3 * 3 :=
  (generate_map_correct 3 3 (by decide) (by decide)).1

/-- C10: `generate_map` is total over all non-negative sizes: a zero width
or height yields the empty tile list, and when both dimensions are at least
`1` but one of them is at most `2`, every generated tile's glyph is `'#'`. -/
theorem generate_map_degenerate (w h : ℕ) :
    (w = 0 ∨ h = 0 → generate_map w h = [])
    ∧ (1 ≤ w → 1 ≤ h → (w ≤ 2 ∨ h ≤ 2) →
        ∀ t ∈ generate_map w h, t.glyph = '#') := by
  constructor
  · rintro (rfl | rfl)
    · simp [generate_map]
    · simp [generate_map]
  · intro _ _ hsmall t ht
    obtain ⟨x, y, hx, hy, rfl⟩ := mem_generate_map.mp ht
    have hb : x = 0 ∨ x = w - 1 ∨ y = 0 ∨ y = h - 1 := by omega
    simp [mkTile, hb]

/-- Witness for C10: size `(0, 5)` gives the empty map, and in the `2 × 5`
map the tile at `(1, 3)` is a wall. -/
theorem generate_map_degenerate_witness :
    generate_map 0 5 = [] ∧ (mkTile 2 5 1 3).glyph = '#' :=
  ⟨(generate_map_degenerate 0 5).1 (Or.inl rfl),
   (generate_map_degenerate 2 5).2 (by decide) (by decide) (Or.inl (by decide))
     (mkTile 2 5 1 3) (by decide)⟩

theorem join_mem {w : World} {e : ℕ} {p : Vec2} {r : Render} :
    (e, p, r) ∈ w.join ↔
      e ∈ w.entities ∧ w.pos e = some p ∧ w.render e = some r := by
  simp only [World.join, List.mem_filterMap]
  constructor
  · rintro ⟨a, ha, hfa⟩
    cases hpa : w.pos a <;> cases hra : w.render a <;>
      simp [hpa, hra, Prod.ext_iff] at hfa
    obtain ⟨rfl, rfl, rfl⟩ := hfa
    exact ⟨ha, hpa, hra⟩
  · rintro ⟨he, hp, hr⟩
    exact ⟨e, he, by simp [hp, hr]⟩

/-- C2: each pressed directional intent independently and additively moves
the player by exactly one grid unit on its axis; from the initial position
`(5, 3)`, a frame with only `move_left` yields `(4, 3)`, and a frame with
both `move_left` and `move_right` leaves the position at `(5, 3)`. -/
theorem update_movement_additive :
    (∀ (p : Vec2) (i : Input),
      movePlayer p i =
        ⟨p.x - (if i.left then 1 else 0) + (if i.right then 1 else 0),
         p.y - (if i.up then 1 else 0) + (if i.down then 1 else 0)⟩)
    ∧ (Game.new true true).world.pos (Game.new true true).player = some ⟨5, 3⟩
    ∧ ((Game.new true true).update
        ⟨true, false, false, false, false, false⟩).1.world.pos
        (Game.new true true).player = some ⟨4, 3⟩
    ∧ ((Game.new true true).update
        ⟨true, true, false, false, false, false⟩).1.world.pos
        (Game.new true true).player = some ⟨5, 3⟩ := by
  refine ⟨?_, rfl, ?_, ?_⟩
  · intro p i
    obtain ⟨px, py⟩ := p
    obtain ⟨l, r, u, d, esc, xk⟩ := i
    cases l <;> cases r <;> cases u <;> cases d <;> simp [movePlayer]
  · norm_num [Game.update, Game.new, initialWorld, World.writePos,
      World.maintain, movePlayer, Vec2.mk.injEq]
  · norm_num [Game.update, Game.new, initialWorld, World.writePos,
      World.maintain, movePlayer, Vec2.mk.injEq]

/-- C4: the join over the `Pos` and `Render` tables yields exactly the
entities holding both components — never an entity lacking either, always
every entity with both — and its result does not depend on the `Health`
table at all. -/
theorem join_exactly_both (w : World) (e : ℕ) :
    ((∃ p r, (e, p, r) ∈ w.join) ↔
      e ∈ w.entities ∧ (∃ p, w.pos e = some p) ∧ (∃ r, w.render e = some r))
    ∧ (∀ hf : ℕ → Option Health, ({ w with health := hf } : World).join = w.join)
    ∧ (∀ p r, (e, p, r) ∈ w.join → w.pos e = some p ∧ w.render e = some r) := by
  refine ⟨?_, fun hf => rfl, fun p r hm => ⟨(join_mem.mp hm).2.1, (join_mem.mp hm).2.2⟩⟩
  constructor
  · rintro ⟨p, r, hm⟩
    obtain ⟨he, hp, hr⟩ := join_mem.mp hm
    exact ⟨he, ⟨p, hp⟩, ⟨r, hr⟩⟩
  · rintro ⟨he, ⟨p, hp⟩, ⟨r, hr⟩⟩
    exact ⟨p, r, join_mem.mpr ⟨he, hp, hr⟩⟩

/-- Witness for C4 at the player entity of the initial world. -/
theorem join_exactly_both_witness :
    initialWorld.pos 4 = some ⟨5, 3⟩
    ∧ initialWorld.render 4 = some ⟨'@', Color.BLUE⟩ :=
  (join_exactly_both initialWorld 4).2.2 ⟨5, 3⟩ ⟨'@', Color.BLUE⟩ (by decide)

/-- C5: every `Health` value of the initial world satisfies
`0 ≤ current ≤ max`; `Health::new` creates `current = max`; no update pass
modifies any `Health` component (the draw pass is embedded as a pure
function of the state), so the invariant is preserved by every frame. -/
theorem health_invariant :
    healthInv initialWorld
    ∧ (∀ v : ℤ, (Health.new v).current = (Health.new v).max)
    ∧ (∀ (g : Game) (i : Input), ((g.update i).1).world.health = g.world.health)
    ∧ (∀ (g : Game) (i : Input),
        healthInv g.world → healthInv ((g.update i).1).world) := by
  have hpres : ∀ (g : Game) (i : Input),
      ((g.update i).1).world.health = g.world.health := by
    intro g i
    unfold Game.update
    cases hp : g.world.pos g.player <;> cases ht : g.text <;>
      by_cases hx : i.x <;>
      simp [World.writePos, World.maintain, hp, ht, hx]
  refine ⟨?_, fun v => rfl, hpres, ?_⟩
  · intro e h he
    simp only [initialWorld] at he
    split_ifs at he <;> simp only [Option.some.injEq] at he
    · subst he; decide
    · subst he; decide
    · subst he; decide
  · intro g i hg e h he
    rw [hpres] at he
    exact hg e h he

/-- Witness for C5: the player's initial `Health { max: 5, current: 3 }`
satisfies the invariant. -/
theorem health_invariant_witness :
    (0 : ℤ) ≤ (Health.mk 5 3).current
    ∧ (Health.mk 5 3).current ≤ (Health.mk 5 3).max :=
  health_invariant.1 4 (Health.mk 5 3) (by decide)

theorem f32_round_eval (q : ℚ) (L m : ℤ) (hq : 0 < q)
    (hL : ratLog2 q = L)
    (hm : roundNearestEven (mulPow2 q (23 - L)) = m) :
    f32_round q = mulPow2 (m : ℚ) (L - 23) := by
  rw [f32_round, if_neg (ne_of_gt hq), if_neg (not_lt.mpr hq.le), hL, hm]

theorem f32_round_three_fifths :
    f32_round (3 / 5 : ℚ) = 10066330 / 16777216 := by
  have hceil : ⌈(1 : ℚ) / (3 / 5)⌉ = 2 := by
    rw [Int.ceil_eq_iff]
    norm_num
  have hL : ratLog2 (3 / 5 : ℚ) = -1 := by
    rw [ratLog2, if_neg (by norm_num), hceil,
      Nat.clog_eq_one (by norm_num) (by norm_num)]
    norm_num
  have hscale : mulPow2 (3 / 5 : ℚ) (23 - (-1)) = 50331648 / 5 := by
    rw [mulPow2]
    norm_num
  have hfloor : ⌊(50331648 / 5 : ℚ)⌋ = 10066329 := by
    rw [Int.floor_eq_iff]
    norm_num
  have hm : roundNearestEven (mulPow2 (3 / 5 : ℚ) (23 - (-1))) = 10066330 := by
    rw [hscale, roundNearestEven, hfloor, if_neg (by norm_num),
      if_pos (by norm_num)]
    norm_num
  rw [f32_round_eval (3 / 5) (-1) 10066330 (by norm_num) hL hm, mulPow2]
  norm_num

theorem f32_round_step_two :
    f32_round ((10066330 / 16777216 : ℚ) * 100) = 15728641 / 262144 := by
  have hfloor60 : ⌊((10066330 / 16777216 : ℚ) * 100)⌋ = 60 := by
    rw [Int.floor_eq_iff]
    norm_num
  have hlog60 : Nat.log 2 60 = 5 :=
    Nat.log_eq_of_pow_le_of_lt_pow (by norm_num) (by norm_num)
  have hL : ratLog2 ((10066330 / 16777216 : ℚ) * 100) = 5 := by
    rw [ratLog2, if_pos (by norm_num), hfloor60,
      show (60 : ℤ).toNat = 60 from rfl, hlog60]
    norm_num
  have hscale : mulPow2 ((10066330 / 16777216 : ℚ) * 100) (23 - 5)
      = 125829125 / 8 := by
    rw [mulPow2]
    norm_num
  have hfloor : ⌊(125829125 / 8 : ℚ)⌋ = 15728640 := by
    rw [Int.floor_eq_iff]
    norm_num
  have hm : roundNearestEven (mulPow2 ((10066330 / 16777216 : ℚ) * 100) (23 - 5))
      = 15728641 := by
    rw [hscale, roundNearestEven, hfloor, if_neg (by norm_num),
      if_pos (by norm_num)]
    norm_num
  rw [f32_round_eval ((10066330 / 16777216 : ℚ) * 100) 5 15728641 (by norm_num)
    hL hm, mulPow2]
  norm_num

theorem f32_round_one : f32_round (1 : ℚ) = 1 := by
  have hL : ratLog2 (1 : ℚ) = 0 := by
    rw [ratLog2, if_pos le_rfl, Int.floor_one,
      show (1 : ℤ).toNat = 1 from rfl, Nat.log_one_right]
    norm_num
  have hscale : mulPow2 (1 : ℚ) (23 - 0) = 8388608 := by
    rw [mulPow2]
    norm_num
  have hfloor : ⌊(8388608 : ℚ)⌋ = 8388608 := by
    rw [Int.floor_eq_iff]
    norm_num
  have hm : roundNearestEven (mulPow2 (1 : ℚ) (23 - 0)) = 8388608 := by
    rw [hscale, roundNearestEven, hfloor, if_pos (by norm_num)]
  rw [f32_round_eval 1 0 8388608 (by norm_num) hL hm, mulPow2]
  norm_num

theorem f32_round_hundred : f32_round (100 : ℚ) = 100 := by
  have hfloor100 : ⌊(100 : ℚ)⌋ = 100 := by
    rw [Int.floor_eq_iff]
    norm_num
  have hlog100 : Nat.log 2 100 = 6 :=
    Nat.log_eq_of_pow_le_of_lt_pow (by norm_num) (by norm_num)
  have hL : ratLog2 (100 : ℚ) = 6 := by
    rw [ratLog2, if_pos (by norm_num), hfloor100,
      show (100 : ℤ).toNat = 100 from rfl, hlog100]
    norm_num
  have hscale : mulPow2 (100 : ℚ) (23 - 6) = 13107200 := by
    rw [mulPow2]
    norm_num
  have hfloor : ⌊(13107200 : ℚ)⌋ = 13107200 := by
    rw [Int.floor_eq_iff]
    norm_num
  have hm : roundNearestEven (mulPow2 (100 : ℚ) (23 - 6)) = 13107200 := by
    rw [hscale, roundNearestEven, hfloor, if_pos (by norm_num)]
  rw [f32_round_eval 100 6 13107200 (by norm_num) hL hm, mulPow2]
  norm_num

theorem f32_round_zero : f32_round (0 : ℚ) = 0 := by
  rw [f32_round, if_pos rfl]

theorem current_health_width_f32_scenario :
    current_health_width_f32 3 5 100 = 15728641 / 262144 := by
  rw [current_health_width_f32,
    show ((3 : ℤ) : ℚ) / ((5 : ℤ) : ℚ) = 3 / 5 by norm_num,
    f32_round_three_fifths, f32_round_step_two]

theorem current_health_width_f32_at_zero :
    current_health_width_f32 0 5 100 = 0 := by
  rw [current_health_width_f32,
    show ((0 : ℤ) : ℚ) / ((5 : ℤ) : ℚ) = 0 by norm_num,
    f32_round_zero, zero_mul, f32_round_zero]

theorem current_health_width_f32_at_max :
    current_health_width_f32 5 5 100 = 100 := by
  rw [current_health_width_f32,
    show ((5 : ℤ) : ℚ) / ((5 : ℤ) : ℚ) = 1 by norm_num,
    f32_round_one, one_mul, f32_round_hundred]

/-- C6 counterexample: the program computes the scenario width in `f32`;
`(3.0f32 / 5.0f32) * 100.0f32` rounds to `15728641 / 2^18 =
60.000003814697265625` — one ulp above `60.0` — so `Health { max: 5,
current: 3 }` with full width `100.0` does not yield exactly `60.0`. -/
theorem health_bar_width_scenario_not_60 :
    current_health_width_f32 3 5 100 = 15728641 / 262144
    ∧ current_health_width_f32 3 5 100 ≠ 60 := by
  refine ⟨current_health_width_f32_scenario, ?_⟩
  rw [current_health_width_f32_scenario]
  norm_num

/-- C6 amended: for `max > 0` the idealized width `W * current / max` —
the exact value that the `f32` computation at main.rs:340-341 rounds — is
monotone in `current` at the full width `100.0` used by the code, equals
`0` at `current = 0` and `W` at `current = max`; the `f32` evaluation
of the `Health { max: 5, current: 3 }`, `W = 100.0` scenario yields
`15728641 / 2^18 = 60.000003814697265625`, one ulp above `60.0`, not
exactly `60.0` — while at `current = 0` and `current = max` the `f32`
width is exactly `0.0` and exactly `100.0`. -/
theorem health_bar_width_correct (mx : ℤ) (hmx : 0 < mx) :
    (∀ c1 c2 : ℤ, c1 ≤ c2 →
      current_health_width c1 mx 100 ≤ current_health_width c2 mx 100)
    ∧ (∀ W : ℚ, current_health_width 0 mx W = 0)
    ∧ (∀ W : ℚ, current_health_width mx mx W = W)
    ∧ current_health_width_f32 3 5 100 = 15728641 / 262144
    ∧ current_health_width_f32 0 5 100 = 0
    ∧ current_health_width_f32 5 5 100 = 100 := by
  have hq : (0 : ℚ) < (mx : ℚ) := by exact_mod_cast hmx
  refine ⟨?_, ?_, ?_, current_health_width_f32_scenario,
    current_health_width_f32_at_zero, current_health_width_f32_at_max⟩
  · intro c1 c2 hc
    unfold current_health_width
    have hcast : ((c1 : ℚ)) ≤ (c2 : ℚ) := by exact_mod_cast hc
    have h1 : (c1 : ℚ) / (mx : ℚ) ≤ (c2 : ℚ) / (mx : ℚ) :=
      div_le_div_of_nonneg_right hcast hq.le
    linarith
  · intro W; simp [current_health_width]
  · intro W
    unfold current_health_width
    rw [div_self (ne_of_gt hq), one_mul]

/-- Witness for C6 (amended) at `max = 5`. -/
theorem health_bar_width_correct_witness :
    current_health_width 1 5 100 ≤ current_health_width 2 5 100
    ∧ current_health_width_f32 3 5 100 = 15728641 / 262144 :=
  ⟨(health_bar_width_correct 5 (by decide)).1 1 2 (by decide),
   (health_bar_width_correct 5 (by decide)).2.2.2.1⟩

/-- C3 counterexample: with `Health { max: 0, current: 0 }` on the player,
the draw pass does NOT skip the health-bar layer — both rectangles are still
emitted — and the division `current / max` is evaluated with a zero divisor
(the code's only gate, main.rs:338, is component presence, not `max ≠ 0`). -/
theorem health_bar_max_zero_not_skipped :
    (healthBarLayer (some ⟨0, 0⟩) ⟨530, 120⟩ 24).length = 2
    ∧ healthBarDividesByZero (some ⟨0, 0⟩) = true := by
  exact ⟨rfl, rfl⟩

/-- C3 amended: the health-bar layer is skipped iff the player carries no
`Health` component; whenever the component is present — `max = 0` included —
both rectangles are emitted, and the division `current / max` runs with a
zero divisor exactly when `max = 0` (in Rust this is well-defined `f32`
arithmetic producing a non-finite width, not a crash). -/
theorem health_bar_skip_iff_no_component (ph : Option Health) (barPos : Vec2)
    (tsy : ℚ) :
    (healthBarLayer ph barPos tsy = [] ↔ ph = none)
    ∧ ((healthBarLayer ph barPos tsy).length = 2 ↔ ∃ h, ph = some h)
    ∧ (healthBarDividesByZero ph = true ↔ ∃ h, ph = some h ∧ h.max = 0) := by
  cases ph <;> simp [healthBarLayer, healthBarDividesByZero]

/-- C7 counterexample: a frame with only the `X` key (`swap_inventory`) held
mutates the inventory text image — a piece of game state that is neither a
`Position` component of the player nor registry maintenance — so the update
pass does not leave every other piece of game state unchanged for every
combination of input intents. -/
theorem update_mutates_inventory :
    ((Game.new true true).update
        ⟨false, false, false, false, false, true⟩).1.text
      ≠ (Game.new true true).text := by
  simp [Game.update, Game.new, initialWorld, World.writePos, World.maintain,
    initialGameText, swappedInventoryText]

/-- C7 amended: one update call mutates at most the player's `Pos` component
and — when `swap_inventory` is held and the text asset is loaded — the
inventory text image, then applies registry maintenance (a no-op: nothing is
ever deferred).  The map, map size, tileset, tile size, player id, entity
list, every `Render` and `Health` component, and the `Pos` components of all
non-player entities are unchanged for every input combination, and the quit
signal is exactly the `Escape` key state. -/
theorem update_frame_effect (g : Game) (i : Input) :
    ((g.update i).1).map = g.map
    ∧ ((g.update i).1).map_size = g.map_size
    ∧ ((g.update i).1).tileset = g.tileset
    ∧ ((g.update i).1).tile_size_px = g.tile_size_px
    ∧ ((g.update i).1).player = g.player
    ∧ ((g.update i).1).world.entities = g.world.entities
    ∧ ((g.update i).1).world.render = g.world.render
    ∧ ((g.update i).1).world.health = g.world.health
    ∧ (∀ e, e ≠ g.player → ((g.update i).1).world.pos e = g.world.pos e)
    ∧ (i.x = false → ((g.update i).1).text = g.text)
    ∧ (g.update i).2 = i.escape := by
  unfold Game.update
  cases hp : g.world.pos g.player <;> cases ht : g.text <;>
    by_cases hx : i.x <;>
    simp_all [World.writePos, World.maintain]

/-- Witness for C7 with `Escape` held and `X` released: non-player data and
the text asset are untouched and the quit signal is raised. -/
theorem update_frame_effect_witness :
    ((Game.new true true).update
        ⟨false, false, false, false, true, false⟩).1.world.pos 0
      = (Game.new true true).world.pos 0
    ∧ ((Game.new true true).update
        ⟨false, false, false, false, true, false⟩).1.text
      = (Game.new true true).text
    ∧ ((Game.new true true).update
        ⟨false, false, false, false, true, false⟩).2 = true :=
  ⟨(update_frame_effect (Game.new true true)
      ⟨false, false, false, false, true, false⟩).2.2.2.2.2.2.2.2.1 0 (by decide),
   (update_frame_effect (Game.new true true)
      ⟨false, false, false, false, true, false⟩).2.2.2.2.2.2.2.2.2.1 rfl,
   (update_frame_effect (Game.new true true)
      ⟨false, false, false, false, true, false⟩).2.2.2.2.2.2.2.2.2.2⟩

/-- C8: during entity drawing, a glyph-table miss omits exactly that one
draw command: the missing entity contributes nothing, the surrounding
entities' commands are exactly those drawn without it, and every entity
whose glyph resolves produces exactly one tinted blit.  (The embedded layer
is a total function: no error outcome exists.) -/
theorem entity_glyph_miss_skips_one (ts : List (Char × Image))
    (pre post : List (ℕ × Vec2 × Render)) (e : ℕ) (p : Vec2) (r : Render)
    (hmiss : lookupGlyph ts r.glyph = none) (offset tile_size : Vec2) :
    entityLayer (some ts) (pre ++ (e, p, r) :: post) offset tile_size
      = entityLayer (some ts) pre offset tile_size
        ++ entityLayer (some ts) post offset tile_size
    ∧ entityLayer (some ts) [(e, p, r)] offset tile_size = []
    ∧ (∀ (e' : ℕ) (q : Vec2) (s : Render) (img : Image),
        lookupGlyph ts s.glyph = some img →
        entityLayer (some ts) [(e', q, s)] offset tile_size
          = [DrawCmd.blended img s.color
              ⟨offset + q.times tile_size, img.size⟩]) := by
  refine ⟨?_, ?_, ?_⟩
  · simp [entityLayer, List.filterMap_append, hmiss]
  · simp [entityLayer, hmiss]
  · intro e' q s img himg
    simp [entityLayer, himg]

/-- Witness for C8: glyph `'z'` is absent from the game tileset, so the
entity carrying it is dropped while a goblin (`'g'`) entity before it is
still drawn. -/
theorem entity_glyph_miss_skips_one_witness :
    entityLayer (some (mk_tileset ⟨24, 24⟩))
        [(0, ⟨9, 6⟩, ⟨'g', Color.RED⟩), (1, ⟨2, 4⟩, ⟨'z', Color.RED⟩)]
        drawOffset ⟨24, 24⟩
      = entityLayer (some (mk_tileset ⟨24, 24⟩))
          [(0, ⟨9, 6⟩, ⟨'g', Color.RED⟩)] drawOffset ⟨24, 24⟩
        ++ entityLayer (some (mk_tileset ⟨24, 24⟩)) [] drawOffset ⟨24, 24⟩ :=
  (entity_glyph_miss_skips_one (mk_tileset ⟨24, 24⟩)
    [(0, ⟨9, 6⟩, ⟨'g', Color.RED⟩)] [] 1 ⟨2, 4⟩ ⟨'z', Color.RED⟩
    (by decide) drawOffset ⟨24, 24⟩).1

/-- C9: the draw pass emits its commands strictly in the layering order
title, attribution lines, map tiles, joined entities, health-bar backing
then current rectangle, inventory block; a layer whose source asset (or, for
the health bar, component) is unavailable contributes the empty segment, and
removing one asset leaves the remaining layers' commands and order intact. -/
theorem draw_layer_order (g : Game) (fontSize : String → Vec2) (screen : Vec2) :
    g.draw fontSize screen =
      titleLayer g.text fontSize screen
        ++ creditsLayer g.text fontSize screen
        ++ mapLayer g.tileset g.map drawOffset g.tile_size_px
        ++ entityLayer g.tileset g.world.join drawOffset g.tile_size_px
        ++ healthBarLayer (g.world.health g.player) g.healthBarPos
            g.tile_size_px.y
        ++ inventoryLayer g.text fontSize g.healthBarPos g.tile_size_px.y
    ∧ (∀ fs sc, titleLayer none fs sc = [] ∧ creditsLayer none fs sc = [])
    ∧ (∀ m o t, mapLayer none m o t = [])
    ∧ (∀ j o t, entityLayer none j o t = [])
    ∧ (∀ b t, healthBarLayer none b t = [])
    ∧ (∀ fs b t, inventoryLayer none fs b t = [])
    ∧ (∀ (h : Health) (b : Vec2) (t : ℚ), healthBarLayer (some h) b t =
        [DrawCmd.fill (Color.RED.with_alpha (1 / 2)) ⟨b, ⟨100, t⟩⟩,
         DrawCmd.fill Color.RED
           ⟨b, ⟨current_health_width h.current h.max 100, t⟩⟩])
    ∧ ({ g with text := none } : Game).draw fontSize screen =
        mapLayer g.tileset g.map drawOffset g.tile_size_px
          ++ entityLayer g.tileset g.world.join drawOffset g.tile_size_px
          ++ healthBarLayer (g.world.health g.player) g.healthBarPos
              g.tile_size_px.y
    ∧ ({ g with tileset := none } : Game).draw fontSize screen =
        titleLayer g.text fontSize screen
          ++ creditsLayer g.text fontSize screen
          ++ healthBarLayer (g.world.health g.player) g.healthBarPos
              g.tile_size_px.y
          ++ inventoryLayer g.text fontSize g.healthBarPos g.tile_size_px.y := by
  refine ⟨rfl, fun fs sc => ⟨rfl, rfl⟩, fun m o t => rfl, fun j o t => rfl,
    fun b t => rfl, fun fs b t => rfl, fun h b t => rfl, ?_, ?_⟩
  · simp [Game.draw, titleLayer, creditsLayer, inventoryLayer, Game.healthBarPos]
  · simp [Game.draw, mapLayer, entityLayer, Game.healthBarPos]
